import Mathlib

/-!
Verification development for the `book` repository's synchronization
pipeline: the scraping functions of `src/synchronization/__main__.py`
(class `Library`) and the deduplicating sink of
`src/synchronization/module/database.py` (class `DatabaseConnector`),
shallowly embedded in Lean 4.

HTML documents are modelled as a tree (`Html`), with bs4-style
`find` / `find_all` (first / all matching descendants in document
order; in bs4 4.x `Tag.__bool__` is always `True`, so the source's
`if tag:` tests after `find` are modelled as `Option` matches).
Python string operations (`strip`, `split`, `lower`, `rstrip`,
`replace`, `in`) and the specific regular expressions used by the
source are modelled by executable Lean functions over character
lists.  Fallible Python code (AttributeError / TypeError /
IndexError / ValueError) is modelled with `Except`.
-/

namespace Book

/-- Python whitespace for `str.strip` / `str.split` / regex `\s`
(ASCII subset: space, tab, newline, carriage return, vertical tab,
form feed). -/
def isWs (c : Char) : Bool :=
  c == ' ' || c == '\t' || c == '\n' || c == '\r' || c == '\x0b' || c == '\x0c'

/-- Python `str.strip()`: drop leading and trailing whitespace. -/
def pyStrip (s : String) : String :=
  String.mk (((s.toList.dropWhile isWs).reverse.dropWhile isWs).reverse)

/-- Python `str.rstrip(chars)`: drop from the end every character that
belongs to the character SET `chars` (not the literal suffix). -/
def pyRstrip (s : String) (chars : String) : String :=
  String.mk ((s.toList.reverse.dropWhile (fun c => chars.toList.contains c)).reverse)

/-- One character of Python `str.split()`: whitespace closes the
pending word (if any); any other character extends it. -/
def pySplitStep (acc : List (List Char) × List Char) (c : Char) :
    List (List Char) × List Char :=
  if isWs c then (if acc.2.isEmpty then acc else (acc.1 ++ [acc.2], []))
  else (acc.1, acc.2 ++ [c])

/-- Python `str.split()` with no separator: split on whitespace runs,
returning no empty pieces. -/
def pySplit (s : String) : List String :=
  let r := s.toList.foldl pySplitStep ([], [])
  (if r.2.isEmpty then r.1 else r.1 ++ [r.2]).map String.mk

/-- Python `str.lower()`, restricted to the alphabets the repository
handles (ASCII letters and Russian Cyrillic, including Ё). -/
def pyLowerChar (c : Char) : Char :=
  if 'A' ≤ c ∧ c ≤ 'Z' then Char.ofNat (c.toNat + 32)
  else if 0x410 ≤ c.toNat ∧ c.toNat ≤ 0x42F then Char.ofNat (c.toNat + 0x20)
  else if c.toNat = 0x401 then Char.ofNat 0x451
  else c

def pyLower (s : String) : String :=
  String.mk (s.toList.map pyLowerChar)

/-- `' '.join(title.lower().split())` — the title normalization of
`DatabaseConnector._is_duplicate_book`. -/
def normalizeTitle (s : String) : String :=
  String.intercalate " " (pySplit (pyLower s))

/-- Python `sub in s` (also `re.search` of a literal pattern being
truthy): substring containment. -/
def containsSubL (sub : List Char) : List Char → Bool
  | [] => sub.isEmpty
  | c :: rest => sub.isPrefixOf (c :: rest) || containsSubL sub rest

def containsSub (s sub : String) : Bool :=
  containsSubL sub.toList s.toList

/-- `re.search(label + r'\s*(\d+)', s)`: scan left to right for the
literal label; after it, greedily skip whitespace; a digit run must
follow (whitespace and digits are disjoint, so no backtracking can
succeed otherwise); capture the maximal digit run.  Returns the first
successful capture. -/
def searchLabelDigitsL (label : List Char) : List Char → Option (List Char)
  | [] =>
    if label.isEmpty then none else none
  | c :: rest =>
    (if label.isPrefixOf (c :: rest) then
      let after := (c :: rest).drop label.length
      let body := after.dropWhile isWs
      let ds := body.takeWhile Char.isDigit
      if ds.isEmpty then none else some ds
    else none).orElse (fun _ => searchLabelDigitsL label rest)

def searchLabelDigits (label s : String) : Option String :=
  (searchLabelDigitsL label.toList s.toList).map String.mk

/-- Backtracking helper for `re.search(label + r'\s*([^\n]+)', s)`:
`\s*` is greedy, then `[^\n]+` needs at least one non-newline
character; on failure the `\s*` gives characters back one at a time.
`k` starts at the maximal whitespace-run length and descends. -/
def lineAttempt (rest : List Char) : Nat → Option (List Char)
  | 0 =>
    match rest with
    | [] => none
    | c :: _ => if c = '\n' then none else some (rest.takeWhile (fun x => x ≠ '\n'))
  | Nat.succ k =>
    match (rest.drop (k + 1)) with
    | [] => lineAttempt rest k
    | c :: _ =>
      if c = '\n' then lineAttempt rest k
      else some ((rest.drop (k + 1)).takeWhile (fun x => x ≠ '\n'))

/-- `re.search(label + r'\s*([^\n]+)', s)`: first position where the
literal label matches and, after greedy whitespace (with
backtracking), a non-empty capture up to the next newline exists. -/
def searchLabelLineL (label : List Char) : List Char → Option (List Char)
  | [] => none
  | c :: rest =>
    (if label.isPrefixOf (c :: rest) then
      let after := (c :: rest).drop label.length
      lineAttempt after ((after.takeWhile isWs).length)
    else none).orElse (fun _ => searchLabelLineL label rest)

def searchLabelLine (label s : String) : Option String :=
  (searchLabelLineL label.toList s.toList).map String.mk

/-- The query component of `urllib.parse.urlparse`: strip the fragment
(everything from the first `#`), then take everything after the first
`?`, if any. -/
def urlQuery (s : String) : String :=
  let noFrag := s.toList.takeWhile (fun c => c ≠ '#')
  let afterQ := (noFrag.dropWhile (fun c => c ≠ '?'))
  match afterQ with
  | [] => ""
  | _ :: t => String.mk t

/-- `urllib.parse.parse_qs` (default options, no percent-decoding
needed for this site's hrefs): split the query on `&`, split each
field at its first `=`, drop fields without `=` or with an empty
value. -/
def parseQs (q : String) : List (String × String) :=
  (q.splitOn "&").filterMap (fun field =>
    match field.toList.span (fun c => c ≠ '=') with
    | (_, []) => none
    | (k, _ :: v) => if v.isEmpty then none else some (String.mk k, String.mk v))

inductive PyErr where
  | attributeError
  | typeError
  | indexError
  | valueError
  deriving DecidableEq, Repr

/-- Parsed HTML, as bs4 sees it: element nodes with a tag name, an
attribute list and children, and text nodes. -/
inductive Html where
  | elem (tag : String) (attrs : List (String × String)) (children : List Html)
  | text (s : String)

namespace Html

/-- `Tag.get(key)`: the attribute's value, or `None`. -/
def attr : Html → String → Option String
  | .elem _ attrs _, k => (attrs.find? (fun p => p.1 = k)).map (fun p => p.2)
  | .text _, _ => none

/-- `Tag.get(key, default)`. -/
def attrD (n : Html) (k d : String) : String :=
  (n.attr k).getD d

def childrenL : Html → List Html
  | .elem _ _ cs => cs
  | .text _ => []

/-- bs4 multi-valued `class` matching: `find("div", {"class": c})`
matches when `c` is one of the whitespace-separated class tokens. -/
def hasClass (n : Html) (c : String) : Bool :=
  match n.attr "class" with
  | some v => (pySplit v).contains c
  | none => false

def isTagNamed (t : String) : Html → Bool
  | .elem tag _ _ => tag = t
  | .text _ => false

def isTagClass (t c : String) (n : Html) : Bool :=
  isTagNamed t n && hasClass n c

/-- First matching node of a node list, searching depth-first in
document order (a node before its children, children before later
siblings) — bs4 `find` over descendants. -/
def findFirstL (p : Html → Bool) : List Html → Option Html
  | [] => none
  | .elem t a cs :: rest =>
    if p (.elem t a cs) then some (.elem t a cs)
    else
      match findFirstL p cs with
      | some r => some r
      | none => findFirstL p rest
  | .text _ :: rest => findFirstL p rest

/-- All matching nodes of a node list in document order (nested
matches included) — bs4 `find_all` over descendants. -/
def findAllL (p : Html → Bool) : List Html → List Html
  | [] => []
  | .elem t a cs :: rest =>
    (if p (.elem t a cs) then [Html.elem t a cs] else []) ++ findAllL p cs ++ findAllL p rest
  | .text _ :: rest => findAllL p rest

/-- `tag.find(...)`: first matching descendant (the node itself is not
a candidate). -/
def find (n : Html) (p : Html → Bool) : Option Html :=
  findFirstL p n.childrenL

/-- `tag.find_all(...)`: all matching descendants. -/
def findAll (n : Html) (p : Html → Bool) : List Html :=
  findAllL p n.childrenL

/-- `tag.get_text()`: concatenation of all descendant text. -/
def getTextL : List Html → String
  | [] => ""
  | .elem _ _ cs :: rest => getTextL cs ++ getTextL rest
  | .text s :: rest => s ++ getTextL rest

def getText (n : Html) : String :=
  getTextL n.childrenL

/-- `tag.get_text(strip=True)`: each text fragment stripped, empties
dropped, concatenated. -/
def getTextStripL : List Html → String
  | [] => ""
  | .elem _ _ cs :: rest => getTextStripL cs ++ getTextStripL rest
  | .text s :: rest => pyStrip s ++ getTextStripL rest

def getTextStrip (n : Html) : String :=
  getTextStripL n.childrenL

/-- `tag.string`: the single text child, recursing through a single
element child; `None` when the tag has zero or several children. -/
def strVal : Html → Option String
  | .text s => some s
  | .elem _ _ [c] => strVal c
  | .elem _ _ _ => none

/-- `find("b", string=re.compile(r'Кафедра:'))`: a `<b>` whose
`.string` exists and contains the label. -/
def isTagStrContains (t lbl : String) (n : Html) : Bool :=
  isTagNamed t n &&
    (match n.strVal with
     | some s => containsSub s lbl
     | none => false)

end Html

/-- Python `int(str)`: surrounding whitespace allowed, optional sign,
then a non-empty digit run; anything else raises `ValueError`. -/
def pyInt (s : String) : Except PyErr Int :=
  let t := (pyStrip s).toList
  let (sign, ds) : Int × List Char :=
    match t with
    | '-' :: r => (-1, r)
    | '+' :: r => (1, r)
    | r => (1, r)
  if ds.isEmpty ∨ ¬ ds.all Char.isDigit then .error .valueError
  else .ok (sign * (ds.foldl (fun a c => a * 10 + (c.toNat - '0'.toNat)) (0 : Nat) : Nat))

/-- The book dictionary built by `Library.get_book_info` and consumed
by the sink.  `title` is `Option String` because the source assigns
`book_img.get("title")`, which is `None` when the attribute is
absent; every other stored value is a genuine string (defaults `''`,
or concatenations / regex captures of strings). -/
structure BookRecord where
  url : String
  image : String
  title : Option String
  author : String
  description : String
  department : String
  pages_count : String
  year : String
  publisher : String
  city : String
  isbn : String
  views : String
  file : String
  deriving DecidableEq, Repr

/-- The per-book summary dictionary built by
`Library.get_books_in_page` (all values are strings: `get("href", '')`
and `get("src", '')` carry `''` defaults, the rest are `get_text`). -/
structure SummaryBook where
  url : String
  image : String
  title : String
  author : String
  description : String
  deriving DecidableEq, Repr

/-- Abstraction of the skip reason strings produced by
`DatabaseConnector._is_duplicate_book` (the source formats Russian log
messages; only the case that fired is observable here). -/
inductive DupReason where
  /-- `"отсутствуют URL и название"` (missing key fields). -/
  | missingKeyFields
  /-- `"уже существует по URL: ..."` (duplicate url). -/
  | duplicateUrl
  /-- `"уже существует по названию: ..."` (duplicate title). -/
  | duplicateTitle
  /-- `"уже существует по названию (нормализация): ..."`
  (duplicate normalized title). -/
  | duplicateNormalizedTitle
  deriving DecidableEq, Repr

/-- Whether a stored record matches the incoming normalized title in
the normalization scan of `_is_duplicate_book` (the
`existing_title and existing_title != title` guard, then the
normalized comparison). -/
def normScanHit (title : String) (b : BookRecord) : Bool :=
  match b.title with
  | some t => t != "" && t != title && normalizeTitle t == normalizeTitle title
  | none => false

/-- `DatabaseConnector._is_duplicate_book`.  The persistent `books`
collection is modelled as a list of records; `objects(url=...)` /
`objects(title=...)` are existence checks over it.
`book_data.get('title', '')` yields the stored value — `None` when
`get_book_info` stored `None` — and `None.strip()` raises
`AttributeError`. -/
def isDuplicateBook (store : List BookRecord) (bd : BookRecord) :
    Except PyErr (Option DupReason) :=
  match bd.title with
  | none => .error .attributeError
  | some t0 =>
    let url := pyStrip bd.url
    let title := pyStrip t0
    if url == "" && title == "" then .ok (some .missingKeyFields)
    else if url != "" && store.any (fun b => b.url == url) then .ok (some .duplicateUrl)
    else if title != "" && store.any (fun b => b.title == some title) then .ok (some .duplicateTitle)
    else if title != "" && store.any (normScanHit title) then .ok (some .duplicateNormalizedTitle)
    else .ok none

/-- The statistics dictionary returned by
`DatabaseConnector.load_books_from_data`. -/
structure LoadStats where
  loaded : Nat
  errors : Nat
  skipped : Nat
  total_processed : Nat
  deriving DecidableEq, Repr

/-- One iteration of the loop in `load_books_from_data`: the dedup
check (whose `AttributeError` is caught by the loop's
`except Exception`, counting an error), then `book.save()`, modelled
by the oracle `save` (`false` = the store raised: `ValidationError`
or a uniqueness-constraint/connectivity failure — both `except` arms
count an error and continue). -/
def loadStep (save : List BookRecord → BookRecord → Bool)
    (acc : LoadStats × List BookRecord) (bd : BookRecord) :
    LoadStats × List BookRecord :=
  let (st, store) := acc
  match isDuplicateBook store bd with
  | .error _ => ({ st with errors := st.errors + 1 }, store)
  | .ok (some _) => ({ st with skipped := st.skipped + 1 }, store)
  | .ok none =>
    if save store bd then
      ({ st with loaded := st.loaded + 1 }, store ++ [bd])
    else
      ({ st with errors := st.errors + 1 }, store)

/-- `DatabaseConnector.load_books_from_data`: fold the per-book loop
over the input list, starting from zero counters, and report
`total_processed = len(books_data)`.  (For an empty input the source
returns early with zero counters; `total_processed` is reported as 0
here where the source omits the key.)  Returns the statistics and the
updated store. -/
def load_books_from_data (save : List BookRecord → BookRecord → Bool)
    (store : List BookRecord) (books_data : List BookRecord) :
    LoadStats × List BookRecord :=
  let r := books_data.foldl (loadStep save) (⟨0, 0, 0, 0⟩, store)
  ({ r.1 with total_processed := books_data.length }, r.2)

/-- The initial `book_data` dictionary of `Library.get_book_info`
(every field defaults to `''`; `title`'s default is the string `''`,
i.e. `some ""`). -/
def defaultBookData (url : String) : BookRecord :=
  ⟨url, "", some "", "", "", "", "", "", "", "", "", "", ""⟩

/-- The image/title paragraph of `get_book_info`:
`book_img = book_info.find("img"); if book_img: ...`.
`base_url.rstrip('/books/') + book_img.get("src")` raises `TypeError`
when `src` is absent (`str + None`); `title` is assigned
`book_img.get("title")`, possibly `None`. -/
def imgStep (base_url : String) (book_info : Html) (r : BookRecord) :
    Except PyErr BookRecord :=
  match book_info.find (Html.isTagNamed "img") with
  | none => .ok r
  | some book_img =>
    match book_img.attr "src" with
    | none => .error .typeError
    | some src =>
      .ok { r with image := pyRstrip base_url "/books/" ++ src,
                   title := book_img.attr "title" }

/-- The author paragraph: first `<b>` descendant's text. -/
def authorStep (book_info : Html) (r : BookRecord) : BookRecord :=
  match book_info.find (Html.isTagNamed "b") with
  | none => r
  | some book_author => { r with author := book_author.getText }

/-- The description paragraph: first `<div class="text">`'s text. -/
def descriptionStep (book_info : Html) (r : BookRecord) : BookRecord :=
  match book_info.find (Html.isTagClass "div" "text") with
  | none => r
  | some d => { r with description := d.getText }

/-- The department paragraph:
`find("b", string=re.compile(r'Кафедра:'))`, then
`get_text().replace('Кафедра:', '').strip()`. -/
def departmentStep (book_info : Html) (r : BookRecord) : BookRecord :=
  match book_info.find (Html.isTagStrContains "b" "Кафедра:") with
  | none => r
  | some dt => { r with department := pyStrip ((dt.getText).replace "Кафедра:" "") }

/-- The regex extractions over `props.get_text()` in `get_book_info`
(the `Колчество страниц` typo is the source's). -/
def propsFields (props_text : String) (r : BookRecord) : BookRecord :=
  let r := match searchLabelDigits "Колчество страниц:" props_text with
    | some v => { r with pages_count := v }
    | none => r
  let r := match searchLabelDigits "Год издания:" props_text with
    | some v => { r with year := v }
    | none => r
  let r := match searchLabelLine "Издательство:" props_text with
    | some v => { r with publisher := pyStrip v }
    | none => r
  let r := match searchLabelLine "Город издания:" props_text with
    | some v => { r with city := pyStrip v }
    | none => r
  let r := match searchLabelLine "ISBN:" props_text with
    | some v =>
      let isbn_value := pyStrip v
      if ! containsSub props_text "Количество просмотров:" then
        { r with isbn := if isbn_value = "" then "" else isbn_value }
      else r
    | none => r
  let r := match searchLabelDigits "Количество просмотров:" props_text with
    | some v => { r with views := v }
    | none => r
  r

/-- The `props` paragraph: first `<div class="props">`, then the regex
extractions over its concatenated text. -/
def propsStep (book_info : Html) (r : BookRecord) : BookRecord :=
  match book_info.find (Html.isTagClass "div" "props") with
  | none => r
  | some props => propsFields props.getText r

/-- The download-file paragraph: first `<a>`;
`base_url.rstrip('/books/') + file_link.get("href")` raises
`TypeError` when `href` is absent. -/
def fileStep (base_url : String) (book_info : Html) (r : BookRecord) :
    Except PyErr BookRecord :=
  match book_info.find (Html.isTagNamed "a") with
  | none => .ok r
  | some file_link =>
    match file_link.attr "href" with
    | none => .error .typeError
    | some href => .ok { r with file := pyRstrip base_url "/books/" ++ href }

/-- `Library.get_book_info` over the parsed detail page `doc` (the
HTTP fetch is the environment).  If no `<div class="bookdetail">`
descendant exists the defaults are returned unchanged; otherwise each
paragraph of the source updates its fields in order. -/
def get_book_info (base_url url : String) (doc : Html) :
    Except PyErr BookRecord :=
  let book_data := defaultBookData url
  match doc.find (Html.isTagClass "div" "bookdetail") with
  | none => .ok book_data
  | some book_info =>
    match imgStep base_url book_info book_data with
    | .error e => .error e
    | .ok r =>
      fileStep base_url book_info
        (propsStep book_info
          (departmentStep book_info
            (descriptionStep book_info
              (authorStep book_info r))))

/-- The title/link paragraph of the per-block extraction of
`Library.get_books_in_page`: url and title from the first `<a>`
inside the first `<h3>`, with a `''` default from `get("href", '')`
and `get_text(strip=True)` for the title. -/
def summaryTitleStep (base_url : String) (book : Html) (bd : SummaryBook) : SummaryBook :=
  match book.find (Html.isTagNamed "h3") with
  | none => bd
  | some title_link =>
    match title_link.find (Html.isTagNamed "a") with
    | none => bd
    | some link =>
      { bd with url := pyRstrip base_url "/books/" ++ link.attrD "href" "",
                title := link.getTextStrip }

def summaryImgStep (base_url : String) (book : Html) (bd : SummaryBook) : SummaryBook :=
  match book.find (Html.isTagNamed "img") with
  | none => bd
  | some img => { bd with image := pyRstrip base_url "/books/" ++ img.attrD "src" "" }

def summaryAuthorStep (book : Html) (bd : SummaryBook) : SummaryBook :=
  match book.find (Html.isTagNamed "b") with
  | none => bd
  | some author_tag => { bd with author := author_tag.getTextStrip }

def summaryDescriptionStep (book : Html) (bd : SummaryBook) : SummaryBook :=
  match book.find (Html.isTagClass "div" "text") with
  | none => bd
  | some d => { bd with description := d.getTextStrip }

/-- The per-block extraction of `Library.get_books_in_page`: the four
paragraphs of the loop body applied in source order to the `''`
defaults — image from the first `<img>` (`get("src", '')`), author
from the first `<b>`, description from the first
`<div class="text">`, all with `get_text(strip=True)`. -/
def extractBookSummary (base_url : String) (book : Html) : SummaryBook :=
  summaryDescriptionStep book
    (summaryAuthorStep book
      (summaryImgStep base_url book
        (summaryTitleStep base_url book ⟨"", "", "", "", ""⟩)))

/-- The `data` dictionary of `Library.get_books_in_page`. -/
structure PageData where
  page : Nat
  books : List SummaryBook
  count : Nat
  deriving DecidableEq, Repr

/-- `Library.get_books_in_page` over the parsed listing page: loop
over every `<div class="book">` descendant, appending one summary and
incrementing `count` per block. -/
def get_books_in_page (base_url : String) (page : Nat) (doc : Html) : PageData :=
  let books := doc.findAll (Html.isTagClass "div" "book")
  books.foldl
    (fun d book =>
      { d with books := d.books ++ [extractBookSummary base_url book],
               count := d.count + 1 })
    ⟨page, [], 0⟩

/-- `Library.get_all_pages_count` over the parsed front page.
`.ok none` models the source falling off the function and returning
`None`; `pages[-1]` and `pages[5]` raise `IndexError` when out of
range (in bs4 4.x `Tag.__bool__` is always `True`, so
`if pages[-1]:` succeeds whenever the list is non-empty). -/
def get_all_pages_count (doc : Html) : Except PyErr (Option Int) :=
  match doc.find (Html.isTagClass "div" "nav-pages") with
  | none => .ok none
  | some pagination =>
    let pages := pagination.findAll (Html.isTagNamed "a")
    match pages.getLast? with
    | none => .error .indexError
    | some _ =>
      match pages[5]? with
      | none => .error .indexError
      | some a5 =>
        match a5.attr "href" with
        | none => .error .typeError
        | some href =>
          let query_params := parseQs (urlQuery href)
          match query_params.find? (fun p => p.1 = "PAGEN_1") with
          | some p =>
            match pyInt p.2 with
            | .ok n => .ok (some n)
            | .error e => .error e
          | none => .ok none

/-- The mutable state of `Library.main`'s loops: the run counters
(`book_counter`, `book_errors`, `book_success`), the accumulated
`all_books.books` list, the persistent store mutated through the
sink, and — as ghost observables main itself discards (`db_result`
is only logged) — the sums of the sink's per-call statistics. -/
structure RunState where
  counter : Nat
  errors : Nat
  success : Nat
  books : List BookRecord
  store : List BookRecord
  dbLoaded : Nat
  dbErrors : Nat
  dbSkipped : Nat
  deriving DecidableEq, Repr

def initRunState : RunState := ⟨0, 0, 0, [], [], 0, 0, 0⟩

/-- The body of `for book in data['books']` in `Library.main`:
increment `book_counter`; an empty url counts an error and skips the
book; a raise from `get_book_info` is caught by the per-book
`except`, counting an error; otherwise the record is appended,
`book_success` incremented, and `load_books_from_data([book_data])`
called (its own exceptions would only reach the inner `except`, which
logs a warning — the sink itself never raises). -/
def processBook (save : List BookRecord → BookRecord → Bool)
    (detail : String → Except PyErr BookRecord)
    (st : RunState) (book : SummaryBook) : RunState :=
  let st := { st with counter := st.counter + 1 }
  if book.url = "" then { st with errors := st.errors + 1 }
  else
    match detail book.url with
    | .error _ => { st with errors := st.errors + 1 }
    | .ok book_data =>
      let st := { st with books := st.books ++ [book_data],
                          success := st.success + 1 }
      let r := load_books_from_data save st.store [book_data]
      { st with store := r.2,
                dbLoaded := st.dbLoaded + r.1.loaded,
                dbErrors := st.dbErrors + r.1.errors,
                dbSkipped := st.dbSkipped + r.1.skipped }

/-- The body of `for page in range(1, total_pages + 1)`: a page whose
`data['count']` is zero is logged and skipped (`continue`), otherwise
every summary on it is processed in order. -/
def processPage (save : List BookRecord → BookRecord → Bool)
    (detail : String → Except PyErr BookRecord)
    (st : RunState) (pageBooks : List SummaryBook) : RunState :=
  if pageBooks.length = 0 then st
  else pageBooks.foldl (processBook save detail) st

/-- `Library.main`'s scraping loops, with the site abstracted: entry
`pages[n]` is the `data['books']` list `get_books_in_page` yields for
page `n+1` (so `total_pages = pages.length`), and `detail url` is the
outcome of `get_book_info(url)` on the fetched detail page.  The
final `all_books.count := total_books` assignment and the JSON dump
do not touch the counters and are omitted. -/
def runMain (save : List BookRecord → BookRecord → Bool)
    (detail : String → Except PyErr BookRecord)
    (pages : List (List SummaryBook)) : RunState :=
  pages.foldl (processPage save detail) initRunState

/-! ### Specification-side definitions -/

/-- The title a stored record presents to title comparisons (a stored
`None` reads as the empty string). -/
def storedTitle (b : BookRecord) : String :=
  b.title.getD ""

/-- The duplicate decision exactly as the specification words it
(§4.5 steps 1–5), over the check's key fields — the stripped `url`
and `title` locals of `_is_duplicate_book`:
1. both empty → duplicate, "missing key fields";
2. else `url` non-empty and some stored record has exactly that url →
   "duplicate url";
3. else `title` non-empty and some stored record has exactly that
   title → "duplicate title";
4. else `title` non-empty and some stored record's title matches under
   normalization (lowercase, collapse whitespace) →
   "duplicate normalized title";
5. else not a duplicate.
To be compared with `isDuplicateBook`, the definition translated from
the source. -/
def dupDecisionSpec (store : List BookRecord) (url title : String) : Option DupReason :=
  if url = "" ∧ title = "" then some .missingKeyFields
  else if url ≠ "" ∧ ∃ b ∈ store, b.url = url then some .duplicateUrl
  else if title ≠ "" ∧ ∃ b ∈ store, storedTitle b = title then some .duplicateTitle
  else if title ≠ "" ∧ ∃ b ∈ store, normalizeTitle (storedTitle b) = normalizeTitle title then
    some .duplicateNormalizedTitle
  else none

/-! ### Concrete fixtures used by witnesses and counterexamples -/

/-- A sink record carrying only a title. -/
def titleOnlyRecord (t : String) : BookRecord :=
  ⟨"", "", some t, "", "", "", "", "", "", "", "", "", ""⟩

def warAndPeace : BookRecord := titleOnlyRecord "Война и мир"

def warAndPeaceSpaced : BookRecord := titleOnlyRecord "  война   и мир  "

/-- A sink record with a url and a title. -/
def urlTitleRecord (u t : String) : BookRecord :=
  ⟨u, "", some t, "", "", "", "", "", "", "", "", "", ""⟩

/-- A store save oracle that never fails. -/
def saveOk : List BookRecord → BookRecord → Bool := fun _ _ => true

/-- A store save oracle that always raises (e.g. a
uniqueness-constraint violation or lost connectivity). -/
def saveFail : List BookRecord → BookRecord → Bool := fun _ _ => false

/-- The §8 scenario catalog: page 1 lists `/b/1` ("A") and `/b/2`
("B"); page 2 lists `/b/1` again ("A-dup"). -/
def scenarioPages : List (List SummaryBook) :=
  [[⟨"/b/1", "", "A", "", ""⟩, ⟨"/b/2", "", "B", "", ""⟩],
   [⟨"/b/1", "", "A-dup", "", ""⟩]]

/-- Detail fetches for the scenario catalog: every fetch succeeds,
`/b/1`'s detail page titles it "A", any other "B". -/
def scenarioDetail : String → Except PyErr BookRecord :=
  fun u => .ok (urlTitleRecord u (if u = "/b/1" then "A" else "B"))
def c6blockAnchor : Html :=
  .elem "div" [("class", "book")]
    [.elem "h3" [] [.elem "a" [("href", "/b/1")] [.text "A"]]]
def c6blockNoAnchor : Html :=
  .elem "div" [("class", "book")] [.elem "h3" [] [.text "no link"]]
def c6doc : Html := .elem "[document]" [] [c6blockAnchor, c6blockNoAnchor]
def c7docNoNav : Html :=
  .elem "[document]" [] [.elem "div" [("class", "intro")] [.text "785 книг"]]
def c7navFew : Html :=
  .elem "div" [("class", "nav-pages")] [.elem "a" [("href", "?PAGEN_1=2")] [.text "2"]]
def c7docFew : Html := .elem "[document]" [] [c7navFew]
def c8text : String := "Количество просмотров: 7\nISBN: 5-02-013850-9"
def c8props : Html := .elem "div" [("class", "props")] [.text c8text]
def c8bi : Html := .elem "div" [("class", "bookdetail")] [c8props]
def c8doc : Html := .elem "[document]" [] [c8bi]
def c8okText : String := "ISBN: 5-02-013850-9\nГод издания: 1999"
def c8okProps : Html := .elem "div" [("class", "props")] [.text c8okText]
def c8okBi : Html := .elem "div" [("class", "bookdetail")] [c8okProps]
def c8okDoc : Html := .elem "[document]" [] [c8okBi]
def c9img : Html := .elem "img" [("src", "/upload/1.png")] []
def c9bi : Html := .elem "div" [("class", "bookdetail")] [c9img]
def c9doc : Html := .elem "[document]" [] [c9bi]
def c9rec : BookRecord :=
  { defaultBookData "u" with
      image := pyRstrip "https://lib.example/books/" "/books/" ++ "/upload/1.png",
      title := none }
def c10titleBlock (href : String) : Html :=
  .elem "div" [("class", "book")] [.elem "h3" [] [.elem "a" [("href", href)] []]]
def c10imgBlock (src : String) : Html :=
  .elem "div" [("class", "book")] [.elem "img" [("src", src)] []]
def c10detailBlock (src : String) : Html :=
  .elem "div" [("class", "bookdetail")] [.elem "img" [("src", src)] []]
def c10fileBlock (href : String) : Html :=
  .elem "div" [("class", "bookdetail")] [.elem "a" [("href", href)] [.text "pdf"]]

/-! ### Auxiliary lemmas -/

theorem char_toNat_ofNat (n : Nat) (h : n < 55296) : (Char.ofNat n).toNat = n := by
  have hv : Nat.isValidChar n := Or.inl h
  simp only [Char.ofNat, hv, dite_true, Char.ofNatAux, Char.toNat, UInt32.ofNat', dif_pos]
  show (UInt32.ofNatCore n _).toNat = n
  simp [UInt32.ofNatCore, UInt32.toNat]

theorem isWs_eq_false_of_ge (c : Char) (h : 33 ≤ c.toNat) : isWs c = false := by
  simp only [isWs, Bool.or_eq_false_iff, beq_eq_false_iff_ne, ne_eq]
  refine ⟨⟨⟨⟨⟨?_, ?_⟩, ?_⟩, ?_⟩, ?_⟩, ?_⟩ <;> (rintro rfl; exact absurd h (by decide))

theorem isWs_pyLowerChar (c : Char) : isWs (pyLowerChar c) = isWs c := by
  unfold pyLowerChar
  split
  · next h =>
    have h1 : 65 ≤ c.toNat := h.1
    have h2 : c.toNat ≤ 90 := h.2
    rw [isWs_eq_false_of_ge c (by omega), isWs_eq_false_of_ge]
    rw [char_toNat_ofNat (c.toNat + 32) (by omega)]
    omega
  · split
    · next h =>
      rw [isWs_eq_false_of_ge c (by omega), isWs_eq_false_of_ge]
      rw [char_toNat_ofNat (c.toNat + 32) (by omega)]
      omega
    · split
      · next h =>
        rw [isWs_eq_false_of_ge c (by omega)]
        decide
      · rfl

theorem pySplitStep_words (acc : List (List Char) × List Char) (c : Char)
    (h : ∀ w ∈ acc.1, w ≠ []) : ∀ w ∈ (pySplitStep acc c).1, w ≠ [] := by
  unfold pySplitStep
  split
  · split
    · exact h
    · next h2 =>
      intro w hw
      rcases List.mem_append.1 hw with h3 | h3
      · exact h w h3
      · simp only [List.mem_singleton] at h3
        subst h3
        simpa [List.isEmpty_iff] using h2
  · exact h

theorem pySplitStep_nontriv (acc : List (List Char) × List Char) (c : Char)
    (h : acc.1 ≠ [] ∨ acc.2 ≠ []) :
    (pySplitStep acc c).1 ≠ [] ∨ (pySplitStep acc c).2 ≠ [] := by
  unfold pySplitStep
  split
  · split
    · exact h
    · left; simp
  · right; simp

theorem pySplitStep_est (acc : List (List Char) × List Char) (c : Char)
    (h : isWs c = false) :
    (pySplitStep acc c).1 ≠ [] ∨ (pySplitStep acc c).2 ≠ [] := by
  unfold pySplitStep
  rw [h]
  right; simp

theorem foldl_pySplit_words (cs : List Char) (acc : List (List Char) × List Char)
    (h : ∀ w ∈ acc.1, w ≠ []) : ∀ w ∈ (cs.foldl pySplitStep acc).1, w ≠ [] := by
  induction cs generalizing acc with
  | nil => exact h
  | cons c cs ih => exact ih _ (pySplitStep_words acc c h)

theorem foldl_pySplit_nontriv (cs : List Char) (acc : List (List Char) × List Char)
    (h : (∃ c ∈ cs, isWs c = false) ∨ acc.1 ≠ [] ∨ acc.2 ≠ []) :
    (cs.foldl pySplitStep acc).1 ≠ [] ∨ (cs.foldl pySplitStep acc).2 ≠ [] := by
  induction cs generalizing acc with
  | nil =>
    simp only [List.foldl_nil]
    rcases h with ⟨c, hc, _⟩ | h
    · exact absurd hc (List.not_mem_nil c)
    · exact h
  | cons c cs ih =>
    rcases h with ⟨d, hd, hws⟩ | hacc
    · rcases List.mem_cons.1 hd with rfl | hd'
      · exact ih _ (Or.inr (pySplitStep_est acc d hws))
      · exact ih _ (Or.inl ⟨d, hd', hws⟩)
    · exact ih _ (Or.inr (pySplitStep_nontriv acc c hacc))

theorem pySplit_ne_nil (s : String) (h : ∃ c ∈ s.toList, isWs c = false) :
    pySplit s ≠ [] ∧ ∀ w ∈ pySplit s, w ≠ "" := by
  unfold pySplit
  have hw := foldl_pySplit_words s.toList ([], []) (by simp)
  have hn := foldl_pySplit_nontriv s.toList ([], []) (Or.inl h)
  set r := s.toList.foldl pySplitStep ([], []) with hr
  constructor
  · intro hnil
    rw [List.map_eq_nil_iff] at hnil
    split at hnil
    · next he =>
      rw [List.isEmpty_iff] at he
      rcases hn with h' | h'
      · exact h' hnil
      · exact h' he
    · simp at hnil
  · intro w hwm
    rw [List.mem_map] at hwm
    obtain ⟨l, hl, rfl⟩ := hwm
    have hlne : l ≠ [] := by
      split at hl
      · exact hw l hl
      · rcases List.mem_append.1 hl with h' | h'
        · exact hw l h'
        · simp only [List.mem_singleton] at h'
          subst h'
          next he => simpa [List.isEmpty_iff] using he
    simpa [String.ext_iff] using hlne

theorem intercalate_go_length (ws : List String) (acc s : String) :
    acc.length ≤ (String.intercalate.go acc s ws).length := by
  induction ws generalizing acc with
  | nil => exact Nat.le_refl _
  | cons a as ih =>
    calc acc.length ≤ (acc ++ s ++ a).length := by
          simp [String.length_append]
          omega
      _ ≤ _ := ih (acc ++ s ++ a)

theorem string_length_pos (w : String) (h : w ≠ "") : 0 < w.length := by
  cases w with
  | mk data =>
    cases data with
    | nil => exact absurd rfl h
    | cons c cs => simp [String.length]

theorem intercalate_ne_empty (w : String) (ws : List String) (hw : w ≠ "") :
    String.intercalate " " (w :: ws) ≠ "" := by
  intro he
  have h1 : w.length ≤ (String.intercalate " " (w :: ws)).length :=
    intercalate_go_length ws w " "
  rw [he] at h1
  have h2 := string_length_pos w hw
  have h3 : ("" : String).length = 0 := rfl
  omega

theorem normalizeTitle_ne_empty (s : String) (h : ∃ c ∈ s.toList, isWs c = false) :
    normalizeTitle s ≠ "" := by
  have h2 : ∃ c ∈ (pyLower s).toList, isWs c = false := by
    obtain ⟨c, hc, hws⟩ := h
    refine ⟨pyLowerChar c, ?_, ?_⟩
    · simp only [pyLower, String.toList, List.mem_map]
      exact ⟨c, hc, rfl⟩
    · rw [isWs_pyLowerChar]; exact hws
  obtain ⟨hne, hall⟩ := pySplit_ne_nil _ h2
  obtain ⟨w, ws, hcons⟩ := List.exists_cons_of_ne_nil hne
  unfold normalizeTitle
  rw [hcons]
  exact intercalate_ne_empty w ws (hall w (hcons ▸ List.mem_cons_self w ws))

theorem pyStrip_exists_nonws (t : String) (h : pyStrip t ≠ "") :
    ∃ c ∈ (pyStrip t).toList, isWs c = false := by
  unfold pyStrip at h ⊢
  set Z := (t.toList.dropWhile isWs).reverse.dropWhile isWs with hZ
  have hz : Z ≠ [] := by
    intro hnil
    apply h
    rw [hnil]
    rfl
  refine ⟨Z.head hz, ?_, ?_⟩
  · have hm : Z.head hz ∈ Z := List.head_mem hz
    show Z.head hz ∈ Z.reverse
    rw [List.mem_reverse]
    exact hm
  · exact List.head_dropWhile_not isWs _ (hZ ▸ hz)

theorem normalizeTitle_empty : normalizeTitle "" = "" := rfl

theorem isDuplicateBook_eq_spec (store : List BookRecord) (bd : BookRecord) (t : String)
    (ht : bd.title = some t) :
    isDuplicateBook store bd = .ok (dupDecisionSpec store (pyStrip bd.url) (pyStrip t)) := by
  rw [isDuplicateBook, ht]
  simp only [Bool.and_eq_true, beq_iff_eq, bne_iff_ne, List.any_eq_true, decide_eq_true_eq]
  set u := pyStrip bd.url with hu
  set tt := pyStrip t with htt
  unfold dupDecisionSpec
  by_cases h1 : u = "" ∧ tt = ""
  · rw [if_pos h1, if_pos h1]
  · rw [if_neg h1, if_neg h1]
    by_cases h2 : u ≠ "" ∧ ∃ x ∈ store, x.url = u
    · rw [if_pos h2, if_pos h2]
    · rw [if_neg h2, if_neg h2]
      have h3iff : (tt ≠ "" ∧ ∃ x ∈ store, storedTitle x = tt) ↔
          (tt ≠ "" ∧ ∃ x ∈ store, x.title = some tt) := by
        constructor
        · rintro ⟨hne, x, hx, hst⟩
          refine ⟨hne, x, hx, ?_⟩
          cases hxt : x.title with
          | none =>
            rw [storedTitle, hxt] at hst
            exact absurd hst.symm hne
          | some tx =>
            rw [storedTitle, hxt] at hst
            simp only [Option.getD_some] at hst
            rw [hst]
        · rintro ⟨hne, x, hx, hst⟩
          refine ⟨hne, x, hx, ?_⟩
          rw [storedTitle, hst]
          rfl
      by_cases h3 : tt ≠ "" ∧ ∃ x ∈ store, x.title = some tt
      · rw [if_pos h3, if_pos (h3iff.2 h3)]
      · rw [if_neg h3, if_neg (fun hc => h3 (h3iff.1 hc))]
        have hnne : tt ≠ "" → normalizeTitle tt ≠ "" := fun hne =>
          normalizeTitle_ne_empty tt (htt ▸ pyStrip_exists_nonws t (htt ▸ hne))
        have h4iff : (tt ≠ "" ∧ ∃ x ∈ store, normalizeTitle (storedTitle x) = normalizeTitle tt) ↔
            (tt ≠ "" ∧ ∃ x ∈ store, normScanHit tt x = true) := by
          constructor
          · rintro ⟨hne, x, hx, hnorm⟩
            refine ⟨hne, x, hx, ?_⟩
            cases hxt : x.title with
            | none =>
              rw [storedTitle, hxt] at hnorm
              simp only [Option.getD_none, normalizeTitle_empty] at hnorm
              exact absurd hnorm.symm (hnne hne)
            | some tx =>
              rw [storedTitle, hxt] at hnorm
              simp only [Option.getD_some] at hnorm
              have htx1 : tx ≠ "" := by
                rintro rfl
                exact hnne hne (by rw [← hnorm]; rfl)
              have htx2 : tx ≠ tt := by
                rintro rfl
                exact h3 ⟨hne, x, hx, hxt⟩
              simp [normScanHit, hxt, htx1, htx2, hnorm]
          · rintro ⟨hne, x, hx, hscan⟩
            refine ⟨hne, x, hx, ?_⟩
            cases hxt : x.title with
            | none => simp [normScanHit, hxt] at hscan
            | some tx =>
              simp only [normScanHit, hxt, Bool.and_eq_true, bne_iff_ne, ne_eq,
                beq_iff_eq] at hscan
              rw [storedTitle, hxt]
              simp only [Option.getD_some]
              exact hscan.2
        by_cases h4 : tt ≠ "" ∧ ∃ x ∈ store, normScanHit tt x = true
        · rw [if_pos h4, if_pos (h4iff.2 h4)]
        · rw [if_neg h4, if_neg (fun hc => h4 (h4iff.1 hc))]

/-- **C1**: For every incoming record (whose title is a string), the
duplicate check `_is_duplicate_book` decides exactly per the
specification's ordered steps over its stripped key fields: if both
url and title are empty it reports "missing key fields"; else if url
is non-empty and some stored record has exactly that url it skips
with "duplicate url"; else if title is non-empty and some stored
record has exactly that title it skips with "duplicate title"; else
if title is non-empty and some stored record's title matches after
lowercasing and collapsing whitespace it skips with "duplicate
normalized title"; otherwise the record is not a duplicate.  In
particular, inserting "Война и мир" and then "  война   и мир  "
through the sink inserts the first and skips the second with the
normalized-title reason. -/
theorem dedup_decides_in_documented_order (store : List BookRecord) (bd : BookRecord)
    (t : String) (ht : bd.title = some t) :
    isDuplicateBook store bd = .ok (dupDecisionSpec store (pyStrip bd.url) (pyStrip t)) ∧
    load_books_from_data saveOk [] [warAndPeace, warAndPeaceSpaced] =
      (⟨1, 0, 1, 2⟩, [warAndPeace]) ∧
    isDuplicateBook [warAndPeace] warAndPeaceSpaced =
      .ok (some .duplicateNormalizedTitle) :=
  ⟨isDuplicateBook_eq_spec store bd t ht, by rfl, by rfl⟩

theorem dedup_decides_in_documented_order_witness :
    isDuplicateBook [] (titleOnlyRecord "T") =
      .ok (dupDecisionSpec [] (pyStrip "") (pyStrip "T")) :=
  (dedup_decides_in_documented_order [] (titleOnlyRecord "T") "T" rfl).1


theorem no_url_match_of_not_dup (store : List BookRecord) (r : BookRecord) (t : String)
    (ht : r.title = some t) (h : isDuplicateBook store r = .ok none)
    (hne : pyStrip r.url ≠ "") : ∀ b ∈ store, b.url ≠ pyStrip r.url := by
  rw [isDuplicateBook_eq_spec store r t ht] at h
  intro b hb heq
  unfold dupDecisionSpec at h
  rw [if_neg (fun hc => hne hc.1), if_pos ⟨hne, b, hb, heq⟩] at h
  exact Option.noConfusion (Except.ok.inj h)

/-- **C2**: Inserting the same record (same, already-stripped,
non-empty url) twice via the deduplicating sink stores exactly one
copy: the first call (not a duplicate of the prior store, and whose
save succeeds) appends it; the second call skips it as "duplicate
url" and leaves the store unchanged, so exactly one stored record
carries that url. -/
theorem insert_same_record_twice_idempotent
    (save : List BookRecord → BookRecord → Bool)
    (store : List BookRecord) (r : BookRecord) (t : String)
    (ht : r.title = some t) (hu : pyStrip r.url = r.url) (hne : r.url ≠ "")
    (hnotdup : isDuplicateBook store r = .ok none)
    (hsave : save store r = true) :
    load_books_from_data save store [r] = (⟨1, 0, 0, 1⟩, store ++ [r]) ∧
    load_books_from_data save (store ++ [r]) [r] = (⟨0, 0, 1, 1⟩, store ++ [r]) ∧
    isDuplicateBook (store ++ [r]) r = .ok (some .duplicateUrl) ∧
    ((store ++ [r]).filter (fun b => b.url == r.url)).length = 1 := by
  have hdup2 : isDuplicateBook (store ++ [r]) r = .ok (some .duplicateUrl) := by
    rw [isDuplicateBook_eq_spec (store ++ [r]) r t ht]
    unfold dupDecisionSpec
    rw [hu]
    rw [if_neg (fun hc => hne hc.1)]
    rw [if_pos ⟨hne, r, List.mem_append_right store (List.mem_singleton_self r), rfl⟩]
  refine ⟨?_, ?_, hdup2, ?_⟩
  · simp [load_books_from_data, loadStep, hnotdup, hsave]
  · simp [load_books_from_data, loadStep, hdup2]
  · have hno := no_url_match_of_not_dup store r t ht hnotdup (by rw [hu]; exact hne)
    rw [List.filter_append]
    have h1 : store.filter (fun b => b.url == r.url) = [] := by
      rw [List.filter_eq_nil_iff]
      intro b hb
      simp only [beq_iff_eq]
      exact fun e => hno b hb (hu.symm ▸ e)
    rw [h1]
    simp

theorem insert_same_record_twice_idempotent_witness :
    load_books_from_data saveOk [] [urlTitleRecord "/b/1" "T"] =
      (⟨1, 0, 0, 1⟩, [urlTitleRecord "/b/1" "T"]) ∧
    load_books_from_data saveOk [urlTitleRecord "/b/1" "T"] [urlTitleRecord "/b/1" "T"] =
      (⟨0, 0, 1, 1⟩, [urlTitleRecord "/b/1" "T"]) ∧
    isDuplicateBook [urlTitleRecord "/b/1" "T"] (urlTitleRecord "/b/1" "T") =
      .ok (some .duplicateUrl) ∧
    (([urlTitleRecord "/b/1" "T"]).filter
      (fun b => b.url == (urlTitleRecord "/b/1" "T").url)).length = 1 :=
  insert_same_record_twice_idempotent saveOk [] (urlTitleRecord "/b/1" "T") "T"
    rfl (by decide) (by decide) (by rfl) rfl

/-- **C3** (counterexample): on the §8 scenario catalog the run does
NOT finish with `success = 2` as claimed: `book_success` counts
successfully scraped books, and the page-2 re-scrape of `/b/1`
succeeds before the sink skips it, so the run finishes with
`success = 3` (errors = 0, one sink skip). -/
theorem scenario_run_success_is_three_not_two :
    (runMain saveOk scenarioDetail scenarioPages).success = 3 ∧
    (runMain saveOk scenarioDetail scenarioPages).success ≠ 2 ∧
    (runMain saveOk scenarioDetail scenarioPages).errors = 0 ∧
    (runMain saveOk scenarioDetail scenarioPages).dbSkipped = 1 := by
  refine ⟨rfl, ?_, rfl, rfl⟩
  intro h
  simp [runMain, scenarioPages, processPage, processBook, scenarioDetail] at h

/-- **C3** (amended): on the §8 scenario catalog the run skips the
page-2 entry by URL match in the sink (one sink skip, two inserts,
store ends with the two distinct records) and finishes with
`errors = 0` — but `success = 3`, because `book_success` counts
successful scrapes, not deduplicated inserts. -/
theorem scenario_run_skips_second_by_url :
    runMain saveOk scenarioDetail scenarioPages =
      ⟨3, 0, 3,
       [urlTitleRecord "/b/1" "A", urlTitleRecord "/b/2" "B", urlTitleRecord "/b/1" "A"],
       [urlTitleRecord "/b/1" "A", urlTitleRecord "/b/2" "B"], 2, 0, 1⟩ ∧
    isDuplicateBook [urlTitleRecord "/b/1" "A", urlTitleRecord "/b/2" "B"]
        (urlTitleRecord "/b/1" "A") = .ok (some .duplicateUrl) :=
  ⟨rfl, rfl⟩


/-- **C4** (counterexample): a store-level write failure during insert
is NOT counted in the run's error counter.  On a one-page, one-book
catalog whose store raises on every save, the run finishes with
`book_errors = 0` (the claim demands 1) while the sink's own
statistics count the failure (`errors = 1`); the book was processed
and nothing was stored. -/
theorem store_failure_not_in_run_error_counter :
    (runMain saveFail scenarioDetail [[⟨"/b/9", "", "Z", "", ""⟩]]).errors = 0 ∧
    (runMain saveFail scenarioDetail [[⟨"/b/9", "", "Z", "", ""⟩]]).errors ≠ 1 ∧
    (runMain saveFail scenarioDetail [[⟨"/b/9", "", "Z", "", ""⟩]]).dbErrors = 1 ∧
    (runMain saveFail scenarioDetail [[⟨"/b/9", "", "Z", "", ""⟩]]).counter = 1 ∧
    (runMain saveFail scenarioDetail [[⟨"/b/9", "", "Z", "", ""⟩]]).store = [] := by
  refine ⟨rfl, ?_, rfl, rfl, rfl⟩
  intro h
  simp [runMain, processPage, processBook, scenarioDetail, load_books_from_data,
    loadStep, initRunState, saveFail] at h

/-- **C4** (amended): a store-level write failure during insert is
caught and counted in the sink's own error statistics, not in the
run's error counter; the run is never aborted — the failing book
still counts as a scraping success, the store is unchanged, and
processing continues with the next book. -/
theorem store_failure_counted_in_sink_run_continues
    (save : List BookRecord → BookRecord → Bool)
    (detail : String → Except PyErr BookRecord)
    (st : RunState) (b : SummaryBook) (bd : BookRecord)
    (hurl : b.url ≠ "") (hdet : detail b.url = .ok bd)
    (hnotdup : isDuplicateBook st.store bd = .ok none)
    (hsave : save st.store bd = false) :
    (processBook save detail st b).errors = st.errors ∧
    (processBook save detail st b).dbErrors = st.dbErrors + 1 ∧
    (processBook save detail st b).store = st.store ∧
    (processBook save detail st b).success = st.success + 1 ∧
    (processBook save detail st b).counter = st.counter + 1 ∧
    ∀ rest : List SummaryBook,
      (b :: rest).foldl (processBook save detail) st =
        rest.foldl (processBook save detail) (processBook save detail st b) := by
  refine ⟨?_, ?_, ?_, ?_, ?_, fun rest => List.foldl_cons ..⟩ <;>
    simp [processBook, hurl, hdet, load_books_from_data, loadStep, hnotdup, hsave]

theorem store_failure_counted_in_sink_run_continues_witness :
    (processBook saveFail scenarioDetail initRunState ⟨"/b/9", "", "Z", "", ""⟩).errors =
      initRunState.errors ∧
    (processBook saveFail scenarioDetail initRunState ⟨"/b/9", "", "Z", "", ""⟩).dbErrors =
      initRunState.dbErrors + 1 ∧
    (processBook saveFail scenarioDetail initRunState ⟨"/b/9", "", "Z", "", ""⟩).store =
      initRunState.store ∧
    (processBook saveFail scenarioDetail initRunState ⟨"/b/9", "", "Z", "", ""⟩).success =
      initRunState.success + 1 ∧
    (processBook saveFail scenarioDetail initRunState ⟨"/b/9", "", "Z", "", ""⟩).counter =
      initRunState.counter + 1 ∧
    ∀ rest : List SummaryBook,
      ((⟨"/b/9", "", "Z", "", ""⟩ : SummaryBook) :: rest).foldl
          (processBook saveFail scenarioDetail) initRunState =
        rest.foldl (processBook saveFail scenarioDetail)
          (processBook saveFail scenarioDetail initRunState ⟨"/b/9", "", "Z", "", ""⟩) :=
  store_failure_counted_in_sink_run_continues saveFail scenarioDetail initRunState
    ⟨"/b/9", "", "Z", "", ""⟩ (urlTitleRecord "/b/9" "B")
    (by decide) rfl rfl rfl


/-- **C5**: for every detail page without a `bookdetail` container,
`get_book_info` returns (never raises) a record whose `url` is the
input URL and whose every other field is the empty-string default. -/
theorem fetchBookDetail_missing_container_defaults (base_url url : String) (doc : Html)
    (h : doc.find (Html.isTagClass "div" "bookdetail") = none) :
    get_book_info base_url url doc =
      .ok ⟨url, "", some "", "", "", "", "", "", "", "", "", "", ""⟩ := by
  simp [get_book_info, h, defaultBookData]

theorem fetchBookDetail_missing_container_defaults_witness :
    get_book_info "https://lib.example/books/" "https://lib.example/b/1"
        (.elem "[document]" [] [.elem "div" [("class", "intro")] [.text "x"]]) =
      .ok ⟨"https://lib.example/b/1", "", some "", "", "", "", "", "", "", "", "", "", ""⟩ :=
  fetchBookDetail_missing_container_defaults "https://lib.example/books/"
    "https://lib.example/b/1"
    (.elem "[document]" [] [.elem "div" [("class", "intro")] [.text "x"]])
    (by simp [Html.find, Html.findFirstL, Html.childrenL, Html.isTagClass,
      Html.isTagNamed, Html.hasClass, Html.attr, pySplit, pySplitStep, isWs])



theorem summaryImgStep_url (base_url : String) (book : Html) (bd : SummaryBook) :
    (summaryImgStep base_url book bd).url = bd.url := by
  unfold summaryImgStep
  cases book.find (Html.isTagNamed "img") <;> rfl

theorem summaryAuthorStep_url (book : Html) (bd : SummaryBook) :
    (summaryAuthorStep book bd).url = bd.url := by
  unfold summaryAuthorStep
  cases book.find (Html.isTagNamed "b") <;> rfl

theorem summaryDescriptionStep_url (book : Html) (bd : SummaryBook) :
    (summaryDescriptionStep book bd).url = bd.url := by
  unfold summaryDescriptionStep
  cases book.find (Html.isTagClass "div" "text") <;> rfl

theorem summaryTitleStep_url_of_no_anchor (base_url : String) (book : Html)
    (bd : SummaryBook)
    (hyp : ∀ h3 : Html, book.find (Html.isTagNamed "h3") = some h3 →
      h3.find (Html.isTagNamed "a") = none) :
    (summaryTitleStep base_url book bd).url = bd.url := by
  unfold summaryTitleStep
  cases h3 : book.find (Html.isTagNamed "h3") with
  | none => rfl
  | some h3el =>
    dsimp only
    rw [hyp h3el h3]

theorem get_books_in_page_foldl (base_url : String) (l : List Html) (d : PageData) :
    (l.foldl
      (fun d book =>
        { d with books := d.books ++ [extractBookSummary base_url book],
                 count := d.count + 1 }) d).books =
        d.books ++ l.map (extractBookSummary base_url) ∧
    (l.foldl
      (fun d book =>
        { d with books := d.books ++ [extractBookSummary base_url book],
                 count := d.count + 1 }) d).count = d.count + l.length := by
  induction l generalizing d with
  | nil => simp
  | cons b bs ih =>
    obtain ⟨h1, h2⟩ := ih { d with books := d.books ++ [extractBookSummary base_url b],
                                   count := d.count + 1 }
    constructor
    · rw [List.foldl_cons, h1]
      simp
    · rw [List.foldl_cons, h2]
      simp
      omega

/-- **C6**: a listing page with N book blocks yields exactly N summary
records (`books` is the blocks mapped through the extractor, and the
reported `count` equals N); a record's url stays the empty default
whenever its block has no `<a>` inside its first `<h3>`; and the
orchestrator rejects an empty-url record as a book without URL —
counting an error and touching nothing else. -/
theorem listBooksOnPage_counts_and_url_policy (base_url : String) (page : Nat) (doc : Html) :
    (get_books_in_page base_url page doc).books =
      (doc.findAll (Html.isTagClass "div" "book")).map (extractBookSummary base_url) ∧
    (get_books_in_page base_url page doc).count =
      (doc.findAll (Html.isTagClass "div" "book")).length ∧
    (∀ block : Html,
      (∀ h3 : Html, block.find (Html.isTagNamed "h3") = some h3 →
        h3.find (Html.isTagNamed "a") = none) →
      (extractBookSummary base_url block).url = "") ∧
    (∀ (save : List BookRecord → BookRecord → Bool)
       (detail : String → Except PyErr BookRecord)
       (st : RunState) (b : SummaryBook), b.url = "" →
      processBook save detail st b =
        { st with counter := st.counter + 1, errors := st.errors + 1 }) := by
  obtain ⟨h1, h2⟩ :=
    get_books_in_page_foldl base_url (doc.findAll (Html.isTagClass "div" "book"))
      ⟨page, [], 0⟩
  refine ⟨by simpa [get_books_in_page] using h1, by simpa [get_books_in_page] using h2,
    ?_, ?_⟩
  · intro block hyp
    unfold extractBookSummary
    rw [summaryDescriptionStep_url, summaryAuthorStep_url, summaryImgStep_url,
      summaryTitleStep_url_of_no_anchor base_url block _ hyp]
  · intro save detail st b hb
    simp [processBook, hb]

theorem listBooksOnPage_counts_and_url_policy_witness :
    (get_books_in_page "https://lib.example/books/" 1 c6doc).count =
      (c6doc.findAll (Html.isTagClass "div" "book")).length ∧
    (extractBookSummary "https://lib.example/books/" c6blockNoAnchor).url = "" ∧
    processBook saveOk scenarioDetail initRunState ⟨"", "", "T", "", ""⟩ =
      { initRunState with counter := initRunState.counter + 1,
                          errors := initRunState.errors + 1 } :=
  ⟨(listBooksOnPage_counts_and_url_policy "https://lib.example/books/" 1 c6doc).2.1,
   (listBooksOnPage_counts_and_url_policy "https://lib.example/books/" 1 c6doc).2.2.1
     c6blockNoAnchor (by
       intro h3 h
       simp [c6blockNoAnchor, Html.find, Html.findFirstL, Html.childrenL,
         Html.isTagNamed] at h
       subst h
       simp [Html.find, Html.findFirstL, Html.childrenL, Html.isTagNamed]),
   (listBooksOnPage_counts_and_url_policy "https://lib.example/books/" 1 c6doc).2.2.2
     saveOk scenarioDetail initRunState ⟨"", "", "T", "", ""⟩ rfl⟩

theorem get_all_pages_count_none_of_no_block (doc : Html)
    (h : doc.find (Html.isTagClass "div" "nav-pages") = none) :
    get_all_pages_count doc = .ok none := by
  unfold get_all_pages_count
  rw [h]

/-- **C7** (counterexample): a front page with NO pagination block
does not propagate any error from `get_all_pages_count` — the source
falls off the `if pagination:` guard and returns `None`, so the call
returns a value (`.ok none`) instead of raising. -/
theorem countTotalPages_missing_block_returns_none :
    get_all_pages_count c7docNoNav = .ok none :=
  get_all_pages_count_none_of_no_block c7docNoNav (by
    simp [c7docNoNav, Html.find, Html.findFirstL, Html.childrenL, Html.isTagClass,
      Html.isTagNamed, Html.hasClass, Html.attr, pySplit, pySplitStep, isWs])

/-- **C7** (amended): if the pagination block is absent the call
returns `None` (no exception); if the block is present but its anchor
list has no sixth element (`pages[-1]` on an empty list, or
`pages[5]`), an `IndexError` propagates. -/
theorem countTotalPages_edge_behavior (doc : Html) :
    (doc.find (Html.isTagClass "div" "nav-pages") = none →
      get_all_pages_count doc = .ok none) ∧
    (∀ pag : Html, doc.find (Html.isTagClass "div" "nav-pages") = some pag →
      (pag.findAll (Html.isTagNamed "a")).length < 6 →
      get_all_pages_count doc = .error .indexError) := by
  constructor
  · intro h
    exact get_all_pages_count_none_of_no_block doc h
  · intro pag hp hlen
    unfold get_all_pages_count
    rw [hp]
    dsimp only
    cases hl : (pag.findAll (Html.isTagNamed "a")).getLast? with
    | none => rfl
    | some a =>
      have h5 : (pag.findAll (Html.isTagNamed "a"))[5]? = none :=
        List.getElem?_eq_none (by omega)
      rw [h5]

theorem countTotalPages_edge_behavior_witness :
    get_all_pages_count c7docFew = .error .indexError :=
  (countTotalPages_edge_behavior c7docFew).2 c7navFew
    (by simp [c7docFew, c7navFew, Html.find, Html.findFirstL, Html.childrenL,
      Html.isTagClass, Html.isTagNamed, Html.hasClass, Html.attr, pySplit,
      pySplitStep, isWs])
    (by simp [c7navFew, Html.findAll, Html.findAllL, Html.childrenL, Html.isTagNamed])

theorem propsFields_isbn (pt : String) (r : BookRecord) :
    (propsFields pt r).isbn =
      match searchLabelLine "ISBN:" pt with
      | some v =>
        if ! containsSub pt "Количество просмотров:" then
          (if pyStrip v = "" then "" else pyStrip v)
        else r.isbn
      | none => r.isbn := by
  unfold propsFields
  cases searchLabelDigits "Колчество страниц:" pt <;>
    cases searchLabelDigits "Год издания:" pt <;>
      cases searchLabelLine "Издательство:" pt <;>
        cases searchLabelLine "Город издания:" pt <;>
          cases h5 : searchLabelLine "ISBN:" pt <;>
            cases searchLabelDigits "Количество просмотров:" pt <;>
              simp [apply_ite BookRecord.isbn]

theorem propsFields_views (pt : String) (r : BookRecord) :
    (propsFields pt r).views =
      match searchLabelDigits "Количество просмотров:" pt with
      | some v => v
      | none => r.views := by
  unfold propsFields
  cases searchLabelDigits "Колчество страниц:" pt <;>
    cases searchLabelDigits "Год издания:" pt <;>
      cases searchLabelLine "Издательство:" pt <;>
        cases searchLabelLine "Город издания:" pt <;>
          cases searchLabelLine "ISBN:" pt <;>
            cases searchLabelDigits "Количество просмотров:" pt <;>
              simp [apply_ite BookRecord.views]

theorem propsFields_title (pt : String) (r : BookRecord) :
    (propsFields pt r).title = r.title := by
  unfold propsFields
  cases searchLabelDigits "Колчество страниц:" pt <;>
    cases searchLabelDigits "Год издания:" pt <;>
      cases searchLabelLine "Издательство:" pt <;>
        cases searchLabelLine "Город издания:" pt <;>
          cases searchLabelLine "ISBN:" pt <;>
            cases searchLabelDigits "Количество просмотров:" pt <;>
              simp [apply_ite BookRecord.title]

theorem get_book_info_props_only (base_url url : String) (doc bi props : Html)
    (h1 : doc.find (Html.isTagClass "div" "bookdetail") = some bi)
    (h2 : bi.find (Html.isTagNamed "img") = none)
    (h3 : bi.find (Html.isTagNamed "b") = none)
    (h4 : bi.find (Html.isTagClass "div" "text") = none)
    (h5 : bi.find (Html.isTagStrContains "b" "Кафедра:") = none)
    (h6 : bi.find (Html.isTagClass "div" "props") = some props)
    (h7 : bi.find (Html.isTagNamed "a") = none) :
    get_book_info base_url url doc =
      .ok (propsFields props.getText (defaultBookData url)) := by
  unfold get_book_info
  rw [h1]
  dsimp only
  have e : imgStep base_url bi (defaultBookData url) = .ok (defaultBookData url) := by
    unfold imgStep
    rw [h2]
  rw [e]
  dsimp only
  unfold authorStep
  rw [h3]
  unfold descriptionStep
  rw [h4]
  unfold departmentStep
  rw [h5]
  unfold propsStep
  rw [h6]
  unfold fileStep
  rw [h7]
/-- **C8** (amended): in detail-page extraction the isbn value is kept
only when the whole props text does not contain the views label
ANYWHERE (`'Количество просмотров:' not in props_text`), not merely
when it does not immediately follow the match; when suppressed, isbn
keeps its empty default while views is still extracted normally. -/
theorem isbn_guard_checks_whole_props_text (base_url url : String)
    (doc bi props : Html) (r : BookRecord)
    (h1 : doc.find (Html.isTagClass "div" "bookdetail") = some bi)
    (h2 : bi.find (Html.isTagNamed "img") = none)
    (h3 : bi.find (Html.isTagNamed "b") = none)
    (h4 : bi.find (Html.isTagClass "div" "text") = none)
    (h5 : bi.find (Html.isTagStrContains "b" "Кафедра:") = none)
    (h6 : bi.find (Html.isTagClass "div" "props") = some props)
    (h7 : bi.find (Html.isTagNamed "a") = none)
    (hr : get_book_info base_url url doc = .ok r) :
    r.isbn = (if containsSub props.getText "Количество просмотров:" then ""
              else match searchLabelLine "ISBN:" props.getText with
                   | some v => pyStrip v
                   | none => "") ∧
    r.views = (match searchLabelDigits "Количество просмотров:" props.getText with
               | some v => v
               | none => "") := by
  rw [get_book_info_props_only base_url url doc bi props h1 h2 h3 h4 h5 h6 h7] at hr
  have hreq : r = propsFields props.getText (defaultBookData url) :=
    (Except.ok.inj hr).symm
  subst hreq
  constructor
  · rw [propsFields_isbn]
    cases hm : searchLabelLine "ISBN:" props.getText with
    | none =>
      show ("" : String) = _
      split <;> rfl
    | some v =>
      by_cases hc : containsSub props.getText "Количество просмотров:" = true
      · simp [hc, defaultBookData]
      · simp only [Bool.not_eq_true] at hc
        simp only [hc]
        by_cases hv : pyStrip v = ""
        · simp [hv]
        · simp [hv]
  · rw [propsFields_views]
    cases searchLabelDigits "Количество просмотров:" props.getText <;> rfl

/-- **C8** (counterexample): a props block whose text holds the views
label BEFORE the ISBN pattern — with nothing at all following the
ISBN value — still suppresses isbn: the pattern matched with a
non-empty value and no views label follows it, yet isbn stays empty
(views is extracted normally). -/
theorem isbn_suppressed_without_following_views_label :
    get_book_info "https://lib.example/books/" "u" c8doc =
      .ok (propsFields c8text (defaultBookData "u")) ∧
    (propsFields c8text (defaultBookData "u")).isbn = "" ∧
    (propsFields c8text (defaultBookData "u")).views = "7" ∧
    searchLabelLine "ISBN:" c8text = some "5-02-013850-9" ∧
    containsSub "ISBN: 5-02-013850-9" "Количество просмотров:" = false := by
  refine ⟨?_, by decide, by decide, by decide, by decide⟩
  have h := get_book_info_props_only "https://lib.example/books/" "u" c8doc c8bi c8props
    (by simp [c8doc, c8bi, c8props, Html.find, Html.findFirstL, Html.childrenL,
      Html.isTagClass, Html.isTagNamed, Html.hasClass, Html.attr, pySplit,
      pySplitStep, isWs])
    (by simp [c8bi, c8props, Html.find, Html.findFirstL, Html.childrenL,
      Html.isTagNamed])
    (by simp [c8bi, c8props, Html.find, Html.findFirstL, Html.childrenL,
      Html.isTagNamed])
    (by simp [c8bi, c8props, Html.find, Html.findFirstL, Html.childrenL,
      Html.isTagClass, Html.isTagNamed, Html.hasClass, Html.attr, pySplit,
      pySplitStep, isWs])
    (by simp [c8bi, c8props, Html.find, Html.findFirstL, Html.childrenL,
      Html.isTagStrContains, Html.isTagNamed])
    (by simp [c8bi, c8props, Html.find, Html.findFirstL, Html.childrenL,
      Html.isTagClass, Html.isTagNamed, Html.hasClass, Html.attr, pySplit,
      pySplitStep, isWs])
    (by simp [c8bi, c8props, Html.find, Html.findFirstL, Html.childrenL,
      Html.isTagNamed])
  rw [h]
  have hg : c8props.getText = c8text := by
    simp [c8props, Html.getText, Html.getTextL, Html.childrenL]
  rw [hg]

theorem isbn_guard_checks_whole_props_text_witness :
    (propsFields c8okText (defaultBookData "u")).isbn =
      (if containsSub c8okText "Количество просмотров:" then ""
       else match searchLabelLine "ISBN:" c8okText with
            | some v => pyStrip v
            | none => "") ∧
    (propsFields c8okText (defaultBookData "u")).views =
      (match searchLabelDigits "Количество просмотров:" c8okText with
       | some v => v
       | none => "") := by
  have hg : c8okProps.getText = c8okText := by
    simp [c8okProps, Html.getText, Html.getTextL, Html.childrenL]
  have h := isbn_guard_checks_whole_props_text "https://lib.example/books/" "u"
    c8okDoc c8okBi c8okProps (propsFields c8okText (defaultBookData "u"))
    (by simp [c8okDoc, c8okBi, c8okProps, Html.find, Html.findFirstL, Html.childrenL,
      Html.isTagClass, Html.isTagNamed, Html.hasClass, Html.attr, pySplit,
      pySplitStep, isWs])
    (by simp [c8okBi, c8okProps, Html.find, Html.findFirstL, Html.childrenL,
      Html.isTagNamed])
    (by simp [c8okBi, c8okProps, Html.find, Html.findFirstL, Html.childrenL,
      Html.isTagNamed])
    (by simp [c8okBi, c8okProps, Html.find, Html.findFirstL, Html.childrenL,
      Html.isTagClass, Html.isTagNamed, Html.hasClass, Html.attr, pySplit,
      pySplitStep, isWs])
    (by simp [c8okBi, c8okProps, Html.find, Html.findFirstL, Html.childrenL,
      Html.isTagStrContains, Html.isTagNamed])
    (by simp [c8okBi, c8okProps, Html.find, Html.findFirstL, Html.childrenL,
      Html.isTagClass, Html.isTagNamed, Html.hasClass, Html.attr, pySplit,
      pySplitStep, isWs])
    (by simp [c8okBi, c8okProps, Html.find, Html.findFirstL, Html.childrenL,
      Html.isTagNamed])
    (by
      rw [get_book_info_props_only "https://lib.example/books/" "u" c8okDoc c8okBi
        c8okProps
        (by simp [c8okDoc, c8okBi, c8okProps, Html.find, Html.findFirstL,
          Html.childrenL, Html.isTagClass, Html.isTagNamed, Html.hasClass, Html.attr,
          pySplit, pySplitStep, isWs])
        (by simp [c8okBi, c8okProps, Html.find, Html.findFirstL, Html.childrenL,
          Html.isTagNamed])
        (by simp [c8okBi, c8okProps, Html.find, Html.findFirstL, Html.childrenL,
          Html.isTagNamed])
        (by simp [c8okBi, c8okProps, Html.find, Html.findFirstL, Html.childrenL,
          Html.isTagClass, Html.isTagNamed, Html.hasClass, Html.attr, pySplit,
          pySplitStep, isWs])
        (by simp [c8okBi, c8okProps, Html.find, Html.findFirstL, Html.childrenL,
          Html.isTagStrContains, Html.isTagNamed])
        (by simp [c8okBi, c8okProps, Html.find, Html.findFirstL, Html.childrenL,
          Html.isTagClass, Html.isTagNamed, Html.hasClass, Html.attr, pySplit,
          pySplitStep, isWs])
        (by simp [c8okBi, c8okProps, Html.find, Html.findFirstL, Html.childrenL,
          Html.isTagNamed])]
      rw [hg])
  rw [hg] at h
  exact h

theorem authorStep_title (bi : Html) (r : BookRecord) :
    (authorStep bi r).title = r.title := by
  unfold authorStep
  cases bi.find (Html.isTagNamed "b") <;> rfl

theorem descriptionStep_title (bi : Html) (r : BookRecord) :
    (descriptionStep bi r).title = r.title := by
  unfold descriptionStep
  cases bi.find (Html.isTagClass "div" "text") <;> rfl

theorem departmentStep_title (bi : Html) (r : BookRecord) :
    (departmentStep bi r).title = r.title := by
  unfold departmentStep
  cases bi.find (Html.isTagStrContains "b" "Кафедра:") <;> rfl

theorem propsStep_title (bi : Html) (r : BookRecord) :
    (propsStep bi r).title = r.title := by
  unfold propsStep
  cases bi.find (Html.isTagClass "div" "props") with
  | none => rfl
  | some props => exact propsFields_title props.getText r

theorem fileStep_title (base_url : String) (bi : Html) (r r' : BookRecord)
    (h : fileStep base_url bi r = .ok r') : r'.title = r.title := by
  unfold fileStep at h
  cases hf : bi.find (Html.isTagNamed "a") with
  | none =>
    rw [hf] at h
    rw [← Except.ok.inj h]
  | some a =>
    rw [hf] at h
    dsimp only at h
    cases ha : a.attr "href" with
    | none => rw [ha] at h; exact absurd h (by simp)
    | some href =>
      rw [ha] at h
      dsimp only at h
      rw [← Except.ok.inj h]

/-- **C9**: when the `bookdetail` container's first `<img>` has a
`src` but no `title` attribute, a successfully returned record
carries `title = None` (not the documented `''` default), and passing
that record to the duplicate check raises `AttributeError`
(`None.strip()`) instead of returning a skip/insert decision. -/
theorem img_without_title_breaks_dedup (base_url url : String)
    (doc bi img : Html) (s : String) (r : BookRecord)
    (h1 : doc.find (Html.isTagClass "div" "bookdetail") = some bi)
    (h2 : bi.find (Html.isTagNamed "img") = some img)
    (h4 : img.attr "src" = some s)
    (h3 : img.attr "title" = none)
    (hr : get_book_info base_url url doc = .ok r) :
    r.title = none ∧
    ∀ store : List BookRecord, isDuplicateBook store r = .error .attributeError := by
  have e : imgStep base_url bi (defaultBookData url) =
      .ok { defaultBookData url with
              image := pyRstrip base_url "/books/" ++ s, title := none } := by
    unfold imgStep
    rw [h2]
    dsimp only
    rw [h4]
    dsimp only
    rw [h3]
  unfold get_book_info at hr
  rw [h1] at hr
  dsimp only at hr
  rw [e] at hr
  dsimp only at hr
  have ht : r.title = none := by
    rw [fileStep_title base_url bi _ r hr, propsStep_title, departmentStep_title,
      descriptionStep_title, authorStep_title]
  refine ⟨ht, fun store => ?_⟩
  unfold isDuplicateBook
  rw [ht]

theorem get_book_info_img_only (base_url url : String) (doc bi img : Html)
    (s : String) (topt : Option String)
    (h1 : doc.find (Html.isTagClass "div" "bookdetail") = some bi)
    (h2 : bi.find (Html.isTagNamed "img") = some img)
    (h4 : img.attr "src" = some s)
    (h3 : img.attr "title" = topt)
    (h5 : bi.find (Html.isTagNamed "b") = none)
    (h6 : bi.find (Html.isTagClass "div" "text") = none)
    (h7 : bi.find (Html.isTagStrContains "b" "Кафедра:") = none)
    (h8 : bi.find (Html.isTagClass "div" "props") = none)
    (h9 : bi.find (Html.isTagNamed "a") = none) :
    get_book_info base_url url doc =
      .ok { defaultBookData url with
              image := pyRstrip base_url "/books/" ++ s, title := topt } := by
  unfold get_book_info
  rw [h1]
  dsimp only
  have e : imgStep base_url bi (defaultBookData url) =
      .ok { defaultBookData url with
              image := pyRstrip base_url "/books/" ++ s, title := topt } := by
    unfold imgStep
    rw [h2]
    dsimp only
    rw [h4]
    dsimp only
    rw [h3]
  rw [e]
  dsimp only
  unfold authorStep
  rw [h5]
  unfold descriptionStep
  rw [h6]
  unfold departmentStep
  rw [h7]
  unfold propsStep
  rw [h8]
  unfold fileStep
  rw [h9]

theorem img_without_title_breaks_dedup_witness :
    c9rec.title = none ∧
    isDuplicateBook [] c9rec = .error .attributeError :=
  have hr : get_book_info "https://lib.example/books/" "u" c9doc = .ok c9rec :=
    get_book_info_img_only "https://lib.example/books/" "u" c9doc c9bi c9img
      "/upload/1.png" none
      (by simp [c9doc, c9bi, c9img, Html.find, Html.findFirstL, Html.childrenL,
        Html.isTagClass, Html.isTagNamed, Html.hasClass, Html.attr, pySplit,
        pySplitStep, isWs])
      (by simp [c9bi, c9img, Html.find, Html.findFirstL, Html.childrenL,
        Html.isTagNamed])
      (by simp [c9img, Html.attr])
      (by simp [c9img, Html.attr])
      (by simp [c9bi, c9img, Html.find, Html.findFirstL, Html.childrenL,
        Html.isTagNamed])
      (by simp [c9bi, c9img, Html.find, Html.findFirstL, Html.childrenL,
        Html.isTagClass, Html.isTagNamed, Html.hasClass, Html.attr, pySplit,
        pySplitStep, isWs])
      (by simp [c9bi, c9img, Html.find, Html.findFirstL, Html.childrenL,
        Html.isTagStrContains, Html.isTagNamed])
      (by simp [c9bi, c9img, Html.find, Html.findFirstL, Html.childrenL,
        Html.isTagClass, Html.isTagNamed, Html.hasClass, Html.attr, pySplit,
        pySplitStep, isWs])
      (by simp [c9bi, c9img, Html.find, Html.findFirstL, Html.childrenL,
        Html.isTagNamed])
  have h := img_without_title_breaks_dedup "https://lib.example/books/" "u" c9doc
    c9bi c9img "/upload/1.png" c9rec
    (by simp [c9doc, c9bi, c9img, Html.find, Html.findFirstL, Html.childrenL,
      Html.isTagClass, Html.isTagNamed, Html.hasClass, Html.attr, pySplit,
      pySplitStep, isWs])
    (by simp [c9bi, c9img, Html.find, Html.findFirstL, Html.childrenL,
      Html.isTagNamed])
    (by simp [c9img, Html.attr])
    (by simp [c9img, Html.attr])
    hr
  ⟨h.1, h.2 []⟩

/-- **C10**: every absolute URL the scraper builds — the summary url
and image of `get_books_in_page`, and the image and file of
`get_book_info` — is `base_url.rstrip('/books/') + href`, where
`rstrip('/books/')` strips the maximal trailing run of characters
from the SET `{'/', 'b', 'o', 'k', 's'}`, not the literal suffix
`'/books/'`; consequently trailing characters of the base URL from
that set are dropped even outside a `/books/` suffix (e.g.
`.../lib` → `.../li`), while a base URL ending otherwise is kept. -/
theorem built_urls_use_charset_rstrip :
    (∀ (base_url href : String) (bd : SummaryBook),
      summaryTitleStep base_url (c10titleBlock href) bd =
        { bd with url := pyRstrip base_url "/books/" ++ href, title := "" }) ∧
    (∀ (base_url src : String) (bd : SummaryBook),
      summaryImgStep base_url (c10imgBlock src) bd =
        { bd with image := pyRstrip base_url "/books/" ++ src }) ∧
    (∀ (base_url src : String) (r : BookRecord),
      imgStep base_url (c10detailBlock src) r =
        .ok { r with image := pyRstrip base_url "/books/" ++ src, title := none }) ∧
    (∀ (base_url href : String) (r : BookRecord),
      fileStep base_url (c10fileBlock href) r =
        .ok { r with file := pyRstrip base_url "/books/" ++ href }) ∧
    (∀ s : String,
      pyRstrip s "/books/" =
        String.mk ((s.toList.reverse.dropWhile
          (fun c => (['/', 'b', 'o', 'k', 's'] : List Char).contains c)).reverse)) ∧
    pyRstrip "https://lib.example/books/" "/books/" = "https://lib.example" ∧
    pyRstrip "https://lib.example/books" "/books/" = "https://lib.example" ∧
    pyRstrip "https://example.org/lib" "/books/" = "https://example.org/li" ∧
    pyRstrip "https://lib.example/catalog" "/books/" = "https://lib.example/catalog" := by
  refine ⟨?_, ?_, ?_, ?_, ?_, by decide, by decide, by decide, by decide⟩
  · intro base_url href bd
    unfold summaryTitleStep
    have h3 : (c10titleBlock href).find (Html.isTagNamed "h3") =
        some (.elem "h3" [] [.elem "a" [("href", href)] []]) := by
      simp [c10titleBlock, Html.find, Html.findFirstL, Html.childrenL, Html.isTagNamed]
    rw [h3]
    dsimp only
    have ha : (Html.elem "h3" [] [.elem "a" [("href", href)] []]).find
        (Html.isTagNamed "a") = some (.elem "a" [("href", href)] []) := by
      simp [Html.find, Html.findFirstL, Html.childrenL, Html.isTagNamed]
    rw [ha]
    dsimp only
    simp [Html.attrD, Html.attr, Html.getTextStrip, Html.getTextStripL, Html.childrenL]
  · intro base_url src bd
    unfold summaryImgStep
    have hi : (c10imgBlock src).find (Html.isTagNamed "img") =
        some (.elem "img" [("src", src)] []) := by
      simp [c10imgBlock, Html.find, Html.findFirstL, Html.childrenL, Html.isTagNamed]
    rw [hi]
    dsimp only
    simp [Html.attrD, Html.attr]
  · intro base_url src r
    unfold imgStep
    have hi : (c10detailBlock src).find (Html.isTagNamed "img") =
        some (.elem "img" [("src", src)] []) := by
      simp [c10detailBlock, Html.find, Html.findFirstL, Html.childrenL, Html.isTagNamed]
    rw [hi]
    dsimp only
    simp [Html.attr]
  · intro base_url href r
    unfold fileStep
    have ha : (c10fileBlock href).find (Html.isTagNamed "a") =
        some (.elem "a" [("href", href)] [.text "pdf"]) := by
      simp [c10fileBlock, Html.find, Html.findFirstL, Html.childrenL, Html.isTagNamed]
    rw [ha]
    dsimp only
    simp [Html.attr]
  · intro s
    unfold pyRstrip
    have hfun : (fun c => ("/books/").toList.contains c) =
        (fun c => (['/', 'b', 'o', 'k', 's'] : List Char).contains c) := by
      funext c
      show (['/', 'b', 'o', 'o', 'k', 's', '/'] : List Char).contains c = _
      simp only [List.contains, List.elem_eq_mem, decide_eq_decide, List.mem_cons,
        List.not_mem_nil]
      tauto
    rw [hfun]

end Book
